import Mathlib

/-!
Shallow embedding of the photobot import pipeline (src/main.rs, src/exif.rs,
src/photohashdb.rs) and proofs about its specification claims.

Paths are modelled as lists of components (`List String`); the filesystem,
the persistent checksum index (PickleDb) and the metadata write-backs are an
explicit `World` threaded through the pipeline.  Outcomes of external
interactions (File::open, adler32, the exiftool subprocess, fs::copy, ...)
are oracle fields carried by each item, so the pure Lean functions mirror the
Rust control flow exactly.
-/

/-- Error kinds of the per-item pipeline (spec taxonomy §7; in the source these
are `anyhow` errors produced at the corresponding call sites). -/
inductive PErr
  | ioError
  | metadataUnavailable
  | missingTimestamp
  | pathEncodingError
  deriving DecidableEq

/-- Result of a pipeline step: an `Ok` value, a caught `Err` (a Rust `Result`
error), or a Rust panic (which is *not* a `Result` and aborts the process). -/
inductive StepResult (α : Type)
  | ok (a : α)
  | err (e : PErr)
  | panic
  deriving DecidableEq

/-- chrono `NaiveDateTime` restricted to the fields the program formats. -/
structure NaiveDateTime where
  year : Nat
  month : Nat
  day : Nat
  hour : Nat
  minute : Nat
  second : Nat
  deriving DecidableEq

/-- Zero-pad to 2 digits (chrono `%m`, `%d`, `%H`, `%M`, `%S`). -/
def pad2 (n : Nat) : String :=
  if n < 10 then "0" ++ toString n else toString n

/-- Zero-pad to 4 digits (chrono `%Y`). -/
def pad4 (n : Nat) : String :=
  if n < 10 then "000" ++ toString n
  else if n < 100 then "00" ++ toString n
  else if n < 1000 then "0" ++ toString n
  else toString n

/-- chrono `%b`: abbreviated English month name. -/
def monthAbbrev (m : Nat) : String :=
  ["Jan", "Feb", "Mar", "Apr", "May", "Jun",
   "Jul", "Aug", "Sep", "Oct", "Nov", "Dec"].getD (m - 1) ""

/-- `date.format("%Y-%m-%b")` from `generate_filename` (main.rs:193). -/
def formatTimelineDate (d : NaiveDateTime) : String :=
  pad4 d.year ++ "-" ++ pad2 d.month ++ "-" ++ monthAbbrev d.month

/-- `date.format("%Y-%m-%d_%H-%M-%S")` from `generate_filename` (main.rs:201). -/
def formatStem (d : NaiveDateTime) : String :=
  pad4 d.year ++ "-" ++ pad2 d.month ++ "-" ++ pad2 d.day ++ "_" ++
  pad2 d.hour ++ "-" ++ pad2 d.minute ++ "-" ++ pad2 d.second

/-- The `Exif` record (exif.rs:43-71). -/
structure Exif where
  date_time_original : Option NaiveDateTime := none
  create_date : Option NaiveDateTime := none
  album : Option String := none
  original_filename : Option String := none
  make : Option String := none
  model : Option String := none
  gps_latitude : Option String := none
  gps_longitude : Option String := none
  deriving DecidableEq

/-- The `Photo` record (main.rs:59-66); `input_path` is a component list. -/
structure Photo where
  input_path : List String
  original_filename : Option String
  output_filename : String
  exif : Exif
  _checksum : Nat
  deriving DecidableEq

/-- `PhotoPath` (main.rs:68-71): discovered file plus its discovery root. -/
structure PhotoPath where
  input_path : List String
  input_dir : List String
  deriving DecidableEq

/-- `State` (main.rs:74-77). -/
structure State where
  output_dir : String
  album_from_filename : Bool
  deriving DecidableEq

/-- The world the pipeline mutates: existing files, the photohash PickleDb
(assoc list, newest entry first — `set` shadows), and the log of
`write_exif` invocations `(destination, photo)`. -/
structure World where
  fs : List String
  index : List (String × String)
  exifWrites : List (String × Photo)
  deriving DecidableEq

/-- `PickleDb::set`: overwrite the value stored for a key (modelled by
shadowing: the newest entry is the one `dbGet` reads). -/
def dbSet (db : List (String × String)) (k v : String) : List (String × String) :=
  (k, v) :: db

/-- `PickleDb::get`: the current value stored for a key. -/
def dbGet (db : List (String × String)) (k : String) : Option String :=
  (db.find? (fun kv => kv.fst == k)).map (fun kv => kv.snd)

/-- `Path::ancestors().count()` for a component-list path: the path itself and
every ancestor down to the empty prefix. -/
def ancestorsCount (p : List String) : Nat := p.length + 1

/-- Does `s` end with `suffix`?  (`String.ends_with` over the char data.) -/
def strEndsWith (s suffix : String) : Bool :=
  suffix.data.isSuffixOf s.data

/-- Split a character list at every occurrence of `c` (the semantics of
`str::split` with a one-character pattern). -/
def splitChar (c : Char) : List Char → List (List Char)
  | [] => [[]]
  | x :: xs =>
    let r := splitChar c xs
    if x = c then [] :: r
    else
      match r with
      | [] => [[x]]
      | y :: ys => (x :: y) :: ys

/-- `Path::extension()` of a file name: the portion after the final `.`,
`none` when there is no embedded `.` (a leading `.` does not count). -/
def rustExtension (s : String) : Option String :=
  let core : List Char :=
    match s.data with
    | '.' :: rest => rest
    | l => l
  let parts := splitChar '.' core
  if parts.length ≥ 2 then some (String.mk (parts.getLastD [])) else none

/-- Outcomes of one item's external interactions, fixed up front so the
pipeline functions are pure: whether `File::open`/`adler32` on the source
succeed, the computed checksum, the exiftool invocation's parsed result
(`Except.error` = process/encoding/JSON failure), and the fallibility of the
copy-side operations in `copy_photo`. -/
structure ItemOracle where
  path : PhotoPath
  openOk : Bool
  checksum : Nat
  exifTool : Except PErr (List Exif)
  createDirOk : Bool := true
  copyOk : Bool := true
  writeExifOk : Bool := true
  dbOk : Bool := true

/-- `get_exif` (exif.rs:73-89) after the subprocess/JSON oracle: on a parsed
record list it executes `g.remove(0)`, which on an empty `Vec` panics
("removal index (is 0) should be < len"). -/
def getExif (tool : Except PErr (List Exif)) : StepResult Exif :=
  match tool with
  | .error e => .err e
  | .ok [] => .panic
  | .ok (e :: _) => .ok e

/-- `generate_camera` (main.rs:178-183). -/
def generate_camera (exif : Exif) : Option String :=
  match exif.make, exif.model with
  | some mk, some md => some (mk ++ " " ++ md)
  | _, _ => none

/-- `generate_filename` (main.rs:185-204). -/
def generate_filename (exif : Exif) : Except PErr String :=
  match exif.date_time_original.or exif.create_date with
  | none => .error .missingTimestamp
  | some date =>
    let s := match exif.album with
      | some i => "albums/" ++ i
      | none => "timeline/" ++ formatTimelineDate date
    let s := match generate_camera exif with
      | some camera => s ++ "/" ++ camera
      | none => s ++ "/unknown camera"
    .ok (s ++ "/" ++ formatStem date)

/-- `get_photo` (main.rs:138-176): open + checksum, exiftool, extension,
album-from-folder inference, filename derivation. -/
def get_photo (it : ItemOracle) (st : State) : StepResult Photo :=
  if it.openOk = false then .err .ioError
  else
    match getExif it.exifTool with
    | .panic => .panic
    | .err e => .err e
    | .ok exif0 =>
      let extension := (rustExtension (it.path.input_path.getLastD "")).getD ""
      let exif1 :=
        if st.album_from_filename = true ∧
            ancestorsCount it.path.input_path - 1 > ancestorsCount it.path.input_dir then
          { exif0 with album := it.path.input_path.dropLast.getLast? }
        else exif0
      match generate_filename exif1 with
      | .error e => .err e
      | .ok filePre =>
        .ok { input_path := it.path.input_path
              original_filename := it.path.input_path.getLast?
              output_filename := filePre ++ "." ++ extension
              exif := exif1
              _checksum := it.checksum }

/-- `copy_photo` (main.rs:206-240): skip when the destination file exists,
otherwise create directories, copy, `write_exif`, `write_photohash`
(main.rs:242-251).  The oracle fields stand for the fallible fs/db calls. -/
def copy_photo (it : ItemOracle) (photo : Photo) (st : State) (w : World) :
    StepResult Photo × World :=
  let out := st.output_dir ++ "/" ++ photo.output_filename
  if out ∈ w.fs then
    (.ok photo, w)
  else if it.createDirOk = false then (.err .ioError, w)
  else if it.copyOk = false then (.err .ioError, w)
  else
    let w1 : World := { w with fs := out :: w.fs }
    if it.writeExifOk = false then (.err .ioError, w1)
    else
      let w2 : World := { w1 with exifWrites := (out, photo) :: w1.exifWrites }
      if it.dbOk = false then (.err .ioError, w2)
      else
        (.ok photo,
         { w2 with index := dbSet w2.index (toString photo._checksum) photo.output_filename })

/-- `import_single_photo` (main.rs:114-116). -/
def import_single_photo (it : ItemOracle) (st : State) (w : World) :
    StepResult Photo × World :=
  match get_photo it st with
  | .panic => (.panic, w)
  | .err e => (.err e, w)
  | .ok photo => copy_photo it photo st w

/-- Run outcome of `import_photos`: either a panic aborted the process, or the
collected successfully imported photos. -/
inductive RunResult
  | panicked
  | finished (photos : List Photo)
  deriving DecidableEq

/-- `import_photos` (main.rs:102-112): each discovered item is attempted in
order; a per-item `Err` is logged and the item dropped (`filter_map` + `ok`);
a panic aborts the run. -/
def import_photos : List ItemOracle → State → World → RunResult × World
  | [], _, w => (.finished [], w)
  | it :: rest, st, w =>
    match import_single_photo it st w with
    | (.panic, w') => (.panicked, w')
    | (.err _, w') => import_photos rest st w'
    | (.ok p, w') =>
      match import_photos rest st w' with
      | (.panicked, w'') => (.panicked, w'')
      | (.finished ps, w'') => (.finished (p :: ps), w'')

/-- Render a component-list path the way `Path::display`/glob matching sees
it. -/
def renderPath (p : List String) : String := String.intercalate "/" p

/-- Semantics of `GLOB_MATCHER` (main.rs:22-23): globset's `**/*.{jpg,jpeg}`
compiled with default options (`*` may span separators, matching is
case-sensitive), so a path matches exactly when it ends in `.jpg` or
`.jpeg`. -/
def globIsMatch (s : String) : Bool :=
  strEndsWith s ".jpg" || strEndsWith s ".jpeg"

/-- `find_all_photos` (main.rs:118-136): walkdir's entries (given as the
oracle list `walked`) filtered through `GLOB_MATCHER`, each paired with its
discovery root. -/
def find_all_photos (input_dir : List String) (walked : List (List String)) :
    List PhotoPath :=
  (walked.filter (fun p => globIsMatch (renderPath p))).map
    (fun p => { input_path := p, input_dir := input_dir })

/-- Modelled from the spec: the case-insensitive `jpg`/`jpeg` extension filter
the Discovery-collaborator sentence of the spec describes (spec §6), used only
to compare against the source's matcher. -/
def matchesJpgCaseInsensitive (s : String) : Bool :=
  strEndsWith (String.mk (s.data.map Char.toLower)) ".jpg" ||
  strEndsWith (String.mk (s.data.map Char.toLower)) ".jpeg"

/-- Observe the derived destination filename of a `get_photo` result. -/
def outputFilenameOf : StepResult Photo → Option String
  | .ok p => some p.output_filename
  | _ => none

/-- The timestamp of the spec's example scenario, 2023-07-04 10:15:30. -/
def dtJuly : NaiveDateTime :=
  { year := 2023, month := 7, day := 4, hour := 10, minute := 15, second := 30 }

/-- Metadata of the spec's example scenario (C5). -/
def exifC5 : Exif :=
  { date_time_original := some dtJuly, make := some "Canon", model := some "EOS R5" }

/-- The example-scenario item `IMG_0001.jpg` discovered under root `in`. -/
def itemC5 : ItemOracle :=
  { path := { input_path := ["in", "IMG_0001.jpg"], input_dir := ["in"] }
    openOk := true, checksum := 1, exifTool := .ok [exifC5] }

/-- Config of the example scenario: output root `out`, no album inference. -/
def stC5 : State := { output_dir := "out", album_from_filename := false }

/-- An item whose exiftool invocation parses to an empty record list (C3). -/
def itEmptyC3 : ItemOracle :=
  { path := { input_path := ["in", "e.jpg"], input_dir := ["in"] }
    openOk := true, checksum := 3, exifTool := .ok [] }

/-- A well-formed item following the empty-record item in the same run (C3). -/
def itGoodC3 : ItemOracle :=
  { path := { input_path := ["in", "g.jpg"], input_dir := ["in"] }
    openOk := true, checksum := 4, exifTool := .ok [exifC5] }

/-- The empty world: no files, empty photohash db, no metadata writes. -/
def emptyWorld : World := { fs := [], index := [], exifWrites := [] }

/-- C5: for the example-scenario record (2023-07-04 10:15:30, Canon EOS R5,
no album, source extension `jpg`), the derived destination fragment is exactly
`timeline/2023-07-Jul/Canon EOS R5/2023-07-04_10-15-30.jpg`: the stem produced
by `generate_filename` plus the source extension appended by `get_photo`. -/
theorem example_scenario_destination_fragment :
    generate_filename exifC5 =
      .ok "timeline/2023-07-Jul/Canon EOS R5/2023-07-04_10-15-30" ∧
    outputFilenameOf (get_photo itemC5 stC5) =
      some "timeline/2023-07-Jul/Canon EOS R5/2023-07-04_10-15-30.jpg" :=
  ⟨rfl, rfl⟩

/-- C10: destination-fragment derivation is a pure function of the metadata
record alone — `generate_filename` evaluated twice on the same record yields
the same fragment. -/
theorem derive_deterministic :
    ∀ r : Exif, generate_filename r = generate_filename r :=
  fun _ => rfl

/-- C3: when the external metadata tool succeeds but returns an empty record
list, `get_exif` panics (`g.remove(0)` on an empty `Vec`), and that panic
aborts the entire run: the remaining well-formed item is never attempted and
the run result is a panic, not a caught per-item error. -/
theorem empty_exiftool_record_aborts_run :
    getExif (Except.ok []) = StepResult.panic ∧
    import_photos [itEmptyC3, itGoodC3] stC5 emptyWorld =
      (RunResult.panicked, emptyWorld) :=
  ⟨rfl, rfl⟩

/-- C4 counterexample: a file named `IMG_0001.JPG` satisfies the spec's
case-insensitive jpg/jpeg filter, yet discovery yields nothing for it: the
compiled glob `**/*.{jpg,jpeg}` is case-sensitive. -/
theorem uppercase_extension_not_discovered :
    matchesJpgCaseInsensitive (renderPath ["in", "IMG_0001.JPG"]) = true ∧
    find_all_photos ["in"] [["in", "IMG_0001.JPG"]] = [] :=
  ⟨rfl, rfl⟩

/-- C4 amended: discovery yields exactly the walked paths that end in the
lowercase extension `.jpg` or `.jpeg` (case-sensitively), each paired with its
discovery root. -/
theorem find_all_photos_lowercase_filter :
    ∀ (root : List String) (walked : List (List String)) (p : List String),
      (∃ pp, pp ∈ find_all_photos root walked ∧
          pp.input_path = p ∧ pp.input_dir = root) ↔
      (p ∈ walked ∧
        (strEndsWith (renderPath p) ".jpg" = true ∨
         strEndsWith (renderPath p) ".jpeg" = true)) := by
  intro root walked p
  constructor
  · rintro ⟨pp, hmem, hp, hroot⟩
    rcases List.mem_map.mp hmem with ⟨q, hq, hqe⟩
    rcases List.mem_filter.mp hq with ⟨hqw, hqm⟩
    have hqp : q = p := by rw [← hp, ← hqe]
    subst hqp
    refine ⟨hqw, ?_⟩
    simpa [globIsMatch, Bool.or_eq_true] using hqm
  · rintro ⟨hw, hmatch⟩
    refine ⟨{ input_path := p, input_dir := root }, ?_, rfl, rfl⟩
    exact List.mem_map.mpr ⟨p, List.mem_filter.mpr
      ⟨hw, by simpa [globIsMatch, Bool.or_eq_true] using hmatch⟩, rfl⟩

/-- C4 amended, witness: `in/a.jpg` is discovered under root `in`. -/
theorem find_all_photos_lowercase_filter_witness :
    ∃ pp, pp ∈ find_all_photos ["in"] [["in", "a.jpg"]] ∧
      pp.input_path = ["in", "a.jpg"] ∧ pp.input_dir = ["in"] :=
  (find_all_photos_lowercase_filter ["in"] [["in", "a.jpg"]] ["in", "a.jpg"]).mpr
    ⟨by decide, Or.inl (by decide)⟩

/-- Helper: when the destination file already exists, `copy_photo` only logs
and returns — the world is untouched. -/
theorem copy_photo_skip (it : ItemOracle) (photo : Photo) (st : State) (w : World)
    (h : (st.output_dir ++ "/" ++ photo.output_filename) ∈ w.fs) :
    copy_photo it photo st w = (.ok photo, w) := by
  simp only [copy_photo]
  rw [if_pos h]

/-- Helper: a fresh destination with all fs/db operations succeeding copies the
file, logs the metadata write-back and records the checksum. -/
theorem copy_photo_fresh (it : ItemOracle) (photo : Photo) (st : State) (w : World)
    (hmem : (st.output_dir ++ "/" ++ photo.output_filename) ∉ w.fs)
    (h1 : it.createDirOk = true) (h2 : it.copyOk = true)
    (h3 : it.writeExifOk = true) (h4 : it.dbOk = true) :
    copy_photo it photo st w =
      (.ok photo,
       { fs := (st.output_dir ++ "/" ++ photo.output_filename) :: w.fs
         index := dbSet w.index (toString photo._checksum) photo.output_filename
         exifWrites :=
           ((st.output_dir ++ "/" ++ photo.output_filename), photo) :: w.exifWrites }) := by
  simp only [copy_photo]
  rw [if_neg hmem]
  simp [h1, h2, h3, h4]

/-- Helper: an `ok` outcome of `copy_photo` returns the photo it was given. -/
theorem copy_photo_ok_photo {it : ItemOracle} {photo : Photo} {st : State}
    {w : World} {p : Photo} {w1 : World}
    (h : copy_photo it photo st w = (.ok p, w1)) : p = photo := by
  simp only [copy_photo] at h
  split at h
  · simp at h
    exact h.1.symm
  · split at h
    · simp at h
    · split at h
      · simp at h
      · split at h
        · simp at h
        · split at h
          · simp at h
          · simp at h
            exact h.1.symm

/-- Helper: an `ok` outcome of `copy_photo` either skipped (world untouched) or
copied (destination pushed onto the filesystem, metadata written, index set). -/
theorem copy_photo_ok_world {it : ItemOracle} {photo : Photo} {st : State}
    {w : World} {p : Photo} {w1 : World}
    (h : copy_photo it photo st w = (.ok p, w1)) :
    ((st.output_dir ++ "/" ++ photo.output_filename) ∈ w.fs ∧ w1 = w) ∨
    ((st.output_dir ++ "/" ++ photo.output_filename) ∉ w.fs ∧
      w1.fs = (st.output_dir ++ "/" ++ photo.output_filename) :: w.fs) := by
  simp only [copy_photo] at h
  split at h
  · rename_i hmem
    simp at h
    exact Or.inl ⟨hmem, h.2.symm⟩
  · rename_i hmem
    split at h
    · simp at h
    · split at h
      · simp at h
      · split at h
        · simp at h
        · split at h
          · simp at h
          · simp at h
            exact Or.inr ⟨hmem, by rw [← h.2]⟩

/-- Helper: an `ok` outcome of `import_single_photo` came from a successful
`get_photo` followed by `copy_photo` on that photo. -/
theorem import_single_photo_ok_inv {it : ItemOracle} {st : State} {w : World}
    {p : Photo} {w1 : World}
    (h : import_single_photo it st w = (.ok p, w1)) :
    get_photo it st = .ok p ∧ copy_photo it p st w = (.ok p, w1) := by
  cases hg : get_photo it st with
  | panic => simp [import_single_photo, hg] at h
  | err e => simp [import_single_photo, hg] at h
  | ok photo =>
    simp only [import_single_photo, hg] at h
    have hp : p = photo := copy_photo_ok_photo h
    subst hp
    exact ⟨rfl, h⟩

/-- C1: an item whose computed destination already names an existing file is
skipped — no copy, no metadata write-back, no checksum-index write (the world
is returned untouched); consequently a successful import is idempotent: a
second `import_single_photo` of the same item into the resulting world changes
nothing, the destination holds exactly one file, and the index is unchanged on
the second run. -/
theorem import_twice_is_skipped :
    (∀ (it : ItemOracle) (photo : Photo) (st : State) (w : World),
      (st.output_dir ++ "/" ++ photo.output_filename) ∈ w.fs →
        copy_photo it photo st w = (.ok photo, w)) ∧
    (∀ (it : ItemOracle) (st : State) (w : World) (p : Photo) (w1 : World),
      import_single_photo it st w = (.ok p, w1) →
        import_single_photo it st w1 = (.ok p, w1) ∧
        (st.output_dir ++ "/" ++ p.output_filename) ∈ w1.fs ∧
        (w.fs.count (st.output_dir ++ "/" ++ p.output_filename) = 0 →
          w1.fs.count (st.output_dir ++ "/" ++ p.output_filename) = 1)) := by
  constructor
  · exact copy_photo_skip
  · intro it st w p w1 h
    obtain ⟨hg, hc⟩ := import_single_photo_ok_inv h
    have hmem1 : (st.output_dir ++ "/" ++ p.output_filename) ∈ w1.fs := by
      rcases copy_photo_ok_world hc with ⟨hmem, hw⟩ | ⟨hmem, hfs⟩
      · rw [hw]; exact hmem
      · rw [hfs]; exact List.mem_cons_self _ _
    refine ⟨?_, hmem1, ?_⟩
    · have h2 : copy_photo it p st w1 = (.ok p, w1) :=
        copy_photo_skip it p st w1 hmem1
      simp only [import_single_photo, hg]
      exact h2
    · intro h0
      rcases copy_photo_ok_world hc with ⟨hmem, hw⟩ | ⟨hmem, hfs⟩
      · exact absurd hmem (List.count_eq_zero.mp h0)
      · rw [hfs, List.count_cons_self, h0]

/-- Concrete photo produced by importing the example-scenario item. -/
def pC1 : Photo :=
  { input_path := ["in", "IMG_0001.jpg"]
    original_filename := some "IMG_0001.jpg"
    output_filename := "timeline/2023-07-Jul/Canon EOS R5/2023-07-04_10-15-30.jpg"
    exif := exifC5
    _checksum := 1 }

/-- World after importing the example-scenario item into the empty world. -/
def w1C1 : World :=
  { fs := ["out/timeline/2023-07-Jul/Canon EOS R5/2023-07-04_10-15-30.jpg"]
    index := [("1", "timeline/2023-07-Jul/Canon EOS R5/2023-07-04_10-15-30.jpg")]
    exifWrites :=
      [("out/timeline/2023-07-Jul/Canon EOS R5/2023-07-04_10-15-30.jpg", pC1)] }

/-- C1 witness: importing the example item once and then again leaves the world
of the first run untouched, with exactly one file at the destination. -/
theorem import_twice_is_skipped_witness :
    import_single_photo itemC5 stC5 w1C1 = (.ok pC1, w1C1) ∧
    (stC5.output_dir ++ "/" ++ pC1.output_filename) ∈ w1C1.fs ∧
    w1C1.fs.count (stC5.output_dir ++ "/" ++ pC1.output_filename) = 1 := by
  have h : import_single_photo itemC5 stC5 emptyWorld = (.ok pC1, w1C1) := by rfl
  have h2 := import_twice_is_skipped.2 itemC5 stC5 emptyWorld pC1 w1C1 h
  exact ⟨h2.1, h2.2.1, h2.2.2 (by rfl)⟩

/-- Helper: `PickleDb::set` makes the new value the one subsequently read. -/
theorem dbGet_dbSet (db : List (String × String)) (k v : String) :
    dbGet (dbSet db k v) k = some v := by
  simp [dbGet, dbSet]

/-- First of two same-checksum items: content with checksum 7, album `AlbumA`. -/
def itA2 : ItemOracle :=
  { path := { input_path := ["in", "x.jpg"], input_dir := ["in"] }
    openOk := true, checksum := 7
    exifTool := .ok [{ date_time_original := some dtJuly, album := some "AlbumA" }] }

/-- Second item with the same checksum 7 but album `AlbumB`, hence a different
destination path. -/
def itB2 : ItemOracle :=
  { path := { input_path := ["in", "y.jpg"], input_dir := ["in"] }
    openOk := true, checksum := 7
    exifTool := .ok [{ date_time_original := some dtJuly, album := some "AlbumB" }] }

/-- C2 counterexample: within one run, a second record of checksum 7 under a
different destination path *overwrites* the existing index mapping — after the
two-item run the index maps 7 to the second path, not the first. -/
theorem photohash_overwrite_counterexample :
    dbGet (import_photos [itA2] stC5 emptyWorld).2.index "7" =
      some "albums/AlbumA/unknown camera/2023-07-04_10-15-30.jpg" ∧
    dbGet (import_photos [itA2, itB2] stC5 emptyWorld).2.index "7" =
      some "albums/AlbumB/unknown camera/2023-07-04_10-15-30.jpg" ∧
    "albums/AlbumA/unknown camera/2023-07-04_10-15-30.jpg" ≠
      "albums/AlbumB/unknown camera/2023-07-04_10-15-30.jpg" :=
  ⟨rfl, rfl, by decide⟩

/-- C2 amended: recording a checksum that is already in the index under a
different path overwrites the mapping — last writer wins — whenever the item's
copy proceeds; the existing mapping survives only when the destination file
already exists, in which case the item is skipped and the index is not
written. -/
theorem photohash_last_writer_wins :
    (∀ (it : ItemOracle) (photo : Photo) (st : State) (w : World),
      (st.output_dir ++ "/" ++ photo.output_filename) ∉ w.fs →
      it.createDirOk = true → it.copyOk = true →
      it.writeExifOk = true → it.dbOk = true →
        dbGet (copy_photo it photo st w).2.index (toString photo._checksum) =
          some photo.output_filename) ∧
    (∀ (it : ItemOracle) (photo : Photo) (st : State) (w : World),
      (st.output_dir ++ "/" ++ photo.output_filename) ∈ w.fs →
        (copy_photo it photo st w).2.index = w.index) := by
  constructor
  · intro it photo st w hmem h1 h2 h3 h4
    rw [copy_photo_fresh it photo st w hmem h1 h2 h3 h4]
    exact dbGet_dbSet _ _ _
  · intro it photo st w hmem
    rw [copy_photo_skip it photo st w hmem]

/-- C2 amended, witness: copying the example photo into the empty world records
its checksum, overwriting a pre-existing mapping of the same checksum. -/
theorem photohash_last_writer_wins_witness :
    dbGet (copy_photo itemC5 pC1 stC5
        { fs := [], index := [("1", "elsewhere.jpg")], exifWrites := [] }).2.index
      (toString pC1._checksum) =
      some "timeline/2023-07-Jul/Canon EOS R5/2023-07-04_10-15-30.jpg" :=
  photohash_last_writer_wins.1 itemC5 pC1 stC5
    { fs := [], index := [("1", "elsewhere.jpg")], exifWrites := [] }
    (by simp) rfl rfl rfl rfl

/-- C6: path derivation fails with `MissingTimestamp` exactly when both
timestamp candidates are absent (and then the item's import changes nothing:
no file is copied); when at least one candidate is present the resolved
timestamp is `date_time_original` if present, otherwise `create_date`. -/
theorem missing_timestamp_rejection :
    (∀ e : Exif,
      generate_filename e = .error .missingTimestamp ↔
        (e.date_time_original = none ∧ e.create_date = none)) ∧
    (∀ (it : ItemOracle) (st : State) (w : World) (e : Exif) (l : List Exif),
      it.openOk = true → it.exifTool = .ok (e :: l) →
      e.date_time_original = none → e.create_date = none →
        import_single_photo it st w = (.err .missingTimestamp, w)) ∧
    (∀ (e : Exif) (d : NaiveDateTime), e.date_time_original = some d →
        generate_filename e = generate_filename { e with create_date := none }) ∧
    (∀ e : Exif, e.date_time_original = none →
        generate_filename e = generate_filename { e with date_time_original := e.create_date }) := by
  refine ⟨?_, ?_, ?_, ?_⟩
  · intro e
    cases hd : e.date_time_original <;> cases hc : e.create_date <;>
      simp [generate_filename, hd, hc]
  · intro it st w e l hopen htool hd hc
    have hgen : ∀ a, generate_filename { e with album := a } =
        Except.error PErr.missingTimestamp := by
      intro a
      simp [generate_filename, hd, hc]
    have hgen0 : generate_filename e = Except.error PErr.missingTimestamp := by
      simp [generate_filename, hd, hc]
    have h1 : get_photo it st = StepResult.err PErr.missingTimestamp := by
      simp only [get_photo, hopen, htool, getExif, Bool.true_eq_false, if_false]
      split
      · rename_i e2 heq
        split at heq
        · rw [hgen] at heq
          cases heq
          rfl
        · rw [hgen0] at heq
          cases heq
          rfl
      · rename_i s heq
        split at heq
        · rw [hgen] at heq
          cases heq
        · rw [hgen0] at heq
          cases heq
    simp [import_single_photo, h1]
  · intro e d hd
    simp [generate_filename, generate_camera, hd]
  · intro e hd
    cases hc : e.create_date <;> simp [generate_filename, generate_camera, hd, hc]

/-- C6 witness item: exiftool returns a record with no timestamps at all. -/
def itC6 : ItemOracle :=
  { path := { input_path := ["in", "n.jpg"], input_dir := ["in"] }
    openOk := true, checksum := 9, exifTool := .ok [{}] }

/-- C6 witness: the timestamp-less item fails with `MissingTimestamp` and the
world — filesystem, index, metadata writes — is untouched. -/
theorem missing_timestamp_rejection_witness :
    import_single_photo itC6 stC5 emptyWorld =
      (.err .missingTimestamp, emptyWorld) :=
  missing_timestamp_rejection.2.1 itC6 stC5 emptyWorld {} [] rfl rfl rfl rfl

/-- C7: with the album-from-folder flag set, a file directly inside the
scanned root (depth zero below the discovery root) keeps the album read from
its metadata, while a file one or more levels deeper gets its album set to the
name of its immediate parent directory, overriding any album already read. -/
theorem album_inference_depth :
    ∀ (it : ItemOracle) (st : State) (e : Exif) (l : List Exif)
      (sub : List String) (fname : String) (p : Photo),
      st.album_from_filename = true →
      it.openOk = true →
      it.exifTool = .ok (e :: l) →
      it.path.input_path = it.path.input_dir ++ sub ++ [fname] →
      get_photo it st = .ok p →
      (sub = [] → p.exif.album = e.album) ∧
      (sub ≠ [] → p.exif.album = sub.getLast?) := by
  intro it st e l sub fname p hflag hopen htool hdecomp hok
  have hlen : it.path.input_path.length =
      it.path.input_dir.length + (sub.length + 1) := by
    rw [hdecomp]
    simp [List.length_append]
  simp only [get_photo, hopen, htool, getExif, Bool.true_eq_false, if_false] at hok
  split at hok
  · cases hok
  · rename_i fp heq
    cases hok
    constructor
    · intro hsub
      subst hsub
      have hC : ¬ (st.album_from_filename = true ∧
          ancestorsCount it.path.input_path - 1 > ancestorsCount it.path.input_dir) := by
        rintro ⟨-, hgt⟩
        simp only [ancestorsCount, List.length_nil] at hgt hlen
        omega
      show (if _ then _ else e).album = e.album
      rw [if_neg hC]
    · intro hsub
      have hpos : 0 < sub.length := List.length_pos.mpr hsub
      have hC : st.album_from_filename = true ∧
          ancestorsCount it.path.input_path - 1 > ancestorsCount it.path.input_dir := by
        refine ⟨hflag, ?_⟩
        simp only [ancestorsCount]
        omega
      have hdl : it.path.input_path.dropLast = it.path.input_dir ++ sub := by
        rw [hdecomp, List.dropLast_concat]
      have hgl : (it.path.input_dir ++ sub).getLast? = sub.getLast? := by
        rw [List.getLast?_append]
        rcases hs : sub.getLast? with _ | x
        · exact absurd (List.getLast?_eq_none_iff.mp hs) hsub
        · rfl
      show (if _ then _ else e).album = sub.getLast?
      rw [if_pos hC]
      show it.path.input_path.dropLast.getLast? = sub.getLast?
      rw [hdl, hgl]

/-- C7 witness item: `in/trip/a.jpg`, one level below the root `in`, whose
metadata already carries album `Embedded`. -/
def itC7 : ItemOracle :=
  { path := { input_path := ["in", "trip", "a.jpg"], input_dir := ["in"] }
    openOk := true, checksum := 5
    exifTool := .ok [{ date_time_original := some dtJuly, album := some "Embedded" }] }

/-- Config with the album-from-folder flag enabled. -/
def stC7 : State := { output_dir := "out", album_from_filename := true }

/-- Photo produced for the C7 witness item: the folder name `trip` overrides
the embedded album. -/
def pC7 : Photo :=
  { input_path := ["in", "trip", "a.jpg"]
    original_filename := some "a.jpg"
    output_filename := "albums/trip/unknown camera/2023-07-04_10-15-30.jpg"
    exif := { date_time_original := some dtJuly, album := some "trip" }
    _checksum := 5 }

/-- C7 witness: the item one level below the root gets album `trip`, the name
of its parent folder, despite its embedded album `Embedded`. -/
theorem album_inference_depth_witness :
    get_photo itC7 stC7 = .ok pC7 ∧ pC7.exif.album = ["trip"].getLast? := by
  have h : get_photo itC7 stC7 = .ok pC7 := by rfl
  exact ⟨h,
    (album_inference_depth itC7 stC7
        { date_time_original := some dtJuly, album := some "Embedded" } []
        ["trip"] "a.jpg" pC7 rfl rfl rfl rfl h).2 (by decide)⟩

/-- C8: the camera sub-bucket is `<make> <model>` joined with a single space
when both are present, and the literal `unknown camera` when either is
missing; the fragment produced by `generate_filename` contains exactly that
sub-bucket between the bucket and the timestamp stem. -/
theorem camera_subbucket :
    (∀ (e : Exif) (mk md : String), e.make = some mk → e.model = some md →
        generate_camera e = some (mk ++ " " ++ md)) ∧
    (∀ e : Exif, e.make = none ∨ e.model = none → generate_camera e = none) ∧
    (∀ (e : Exif) (d : NaiveDateTime) (mk md : String),
      e.date_time_original.or e.create_date = some d → e.album = none →
      e.make = some mk → e.model = some md →
        generate_filename e =
          .ok ("timeline/" ++ formatTimelineDate d ++ "/" ++ (mk ++ " " ++ md) ++
            "/" ++ formatStem d)) ∧
    (∀ (e : Exif) (d : NaiveDateTime),
      e.date_time_original.or e.create_date = some d → e.album = none →
      e.make = none ∨ e.model = none →
        generate_filename e =
          .ok ("timeline/" ++ formatTimelineDate d ++ "/unknown camera" ++
            "/" ++ formatStem d)) := by
  refine ⟨?_, ?_, ?_, ?_⟩
  · intro e mk md hmk hmd
    simp [generate_camera, hmk, hmd]
  · intro e h
    rcases h with h | h <;> simp [generate_camera, h]
  · intro e d mk md hor halb hmk hmd
    simp [generate_filename, generate_camera, hor, halb, hmk, hmd]
  · intro e d hor halb h
    have hcam : generate_camera e = none := by
      rcases h with h | h
      · simp [generate_camera, h]
      · cases hm : e.make <;> simp [generate_camera, h, hm]
    simp [generate_filename, hor, halb, hcam]

/-- C8 witness: on the example-scenario record both make and model are present
and the sub-bucket is `Canon EOS R5`; dropping the model yields the literal
`unknown camera` sub-bucket. -/
theorem camera_subbucket_witness :
    generate_camera exifC5 = some ("Canon" ++ " " ++ "EOS R5") ∧
    generate_filename { exifC5 with model := none } =
      .ok ("timeline/" ++ formatTimelineDate dtJuly ++ "/unknown camera" ++
        "/" ++ formatStem dtJuly) :=
  ⟨camera_subbucket.1 exifC5 "Canon" "EOS R5" rfl rfl,
   camera_subbucket.2.2.2 { exifC5 with model := none } dtJuly rfl rfl (Or.inr rfl)⟩

/-- C9: per-item failures are caught at the top of the item's pipeline and the
item is dropped while the run continues with the remaining items from the
world the failure left behind; a successful item contributes its photo at its
discovery position; the empty discovery list yields the empty result. -/
theorem per_item_failures_dropped :
    (∀ (it : ItemOracle) (rest : List ItemOracle) (st : State) (w : World)
        (e : PErr) (w' : World),
      import_single_photo it st w = (.err e, w') →
        import_photos (it :: rest) st w = import_photos rest st w') ∧
    (∀ (it : ItemOracle) (rest : List ItemOracle) (st : State) (w : World)
        (p : Photo) (w' : World),
      import_single_photo it st w = (.ok p, w') →
      ∀ (ps : List Photo) (w'' : World),
        import_photos rest st w' = (.finished ps, w'') →
          import_photos (it :: rest) st w = (.finished (p :: ps), w'')) ∧
    (∀ (st : State) (w : World), import_photos [] st w = (.finished [], w)) := by
  refine ⟨?_, ?_, fun _ _ => rfl⟩
  · intro it rest st w e w' h
    simp only [import_photos, h]
  · intro it rest st w p w' h ps w'' hrest
    simp only [import_photos, h, hrest]

/-- C9 witness item: `File::open` on the source fails, an `IOError`. -/
def itC9 : ItemOracle :=
  { path := { input_path := ["in", "b.jpg"], input_dir := ["in"] }
    openOk := false, checksum := 8, exifTool := .ok [exifC5] }

/-- C9 witness: the failing first item is dropped and the succeeding second
item is still imported, alone, in order. -/
theorem per_item_failures_dropped_witness :
    import_photos [itC9, itemC5] stC5 emptyWorld = (.finished [pC1], w1C1) := by
  have h1 : import_single_photo itC9 stC5 emptyWorld =
      (.err .ioError, emptyWorld) := rfl
  have h2 : import_single_photo itemC5 stC5 emptyWorld = (.ok pC1, w1C1) := rfl
  have h3 : import_photos [itemC5] stC5 emptyWorld = (.finished [pC1], w1C1) :=
    per_item_failures_dropped.2.1 itemC5 [] stC5 emptyWorld pC1 w1C1 h2 [] w1C1
      (per_item_failures_dropped.2.2 stC5 w1C1)
  rw [per_item_failures_dropped.1 itC9 [itemC5] stC5 emptyWorld .ioError
    emptyWorld h1]
  exact h3
